import Mathlib

/-!
Verification development for the `django-orderbus` order-ingestion pipeline.

The embedding models, from the repository source:
  * `orders/security.py` — HMAC-SHA256 webhook signature verification
    (hex and Shopify/base64 variants), including the real SHA-256 and
    HMAC computations over byte lists;
  * `orders/models.py` + `orders/serializers.py` — the Order/OrderItem
    data model, payload validation, and `OrderWebhookSerializer.create`;
  * `orders/views.py` — the `order_webhook` ingestion handler state
    machine (signature gate, validation, idempotency pre-check, atomic
    create with IntegrityError handling, post-commit publish);
  * `orders/management/commands/subscribe_order_created.py` — the relay
    ack/nack decision;
  * `orders/webhooks.py` — the egress sender `send_order_created_webhook`.

Bytes are `List Nat` (each entry a byte value), machine words are `Nat`
reduced `% 2^32`, decimals with two places are integers counted in
hundredths, and external effects (the database, the broker publish, the
outbound HTTP call) are passed explicitly as state or oracles.
-/

/-! ## Bytes and 32-bit words -/

/-- 2^32, the modulus for SHA-256 word arithmetic. -/
def w32 : Nat := 4294967296

/-- Right rotation of a 32-bit word by `n` bits. -/
def rotr (n x : Nat) : Nat := ((x >>> n) ||| (x <<< (32 - n))) % w32

/-- SHA-256 Σ₀. -/
def bigSigma0 (x : Nat) : Nat := (rotr 2 x) ^^^ (rotr 13 x) ^^^ (rotr 22 x)

/-- SHA-256 Σ₁. -/
def bigSigma1 (x : Nat) : Nat := (rotr 6 x) ^^^ (rotr 11 x) ^^^ (rotr 25 x)

/-- SHA-256 σ₀. -/
def smallSigma0 (x : Nat) : Nat := (rotr 7 x) ^^^ (rotr 18 x) ^^^ (x >>> 3)

/-- SHA-256 σ₁. -/
def smallSigma1 (x : Nat) : Nat := (rotr 17 x) ^^^ (rotr 19 x) ^^^ (x >>> 10)

/-- SHA-256 choice function. -/
def shaCh (x y z : Nat) : Nat := (x &&& y) ^^^ ((4294967295 ^^^ x) &&& z)

/-- SHA-256 majority function. -/
def shaMaj (x y z : Nat) : Nat := (x &&& y) ^^^ (x &&& z) ^^^ (y &&& z)

/-- The 64 SHA-256 round constants (FIPS 180-4 §4.2.2, written in decimal). -/
def shaK : List Nat :=
  [1116352408, 1899447441, 3049323471, 3921009573, 961987163, 1508970993,
   2453635748, 2870763221, 3624381080, 310598401, 607225278, 1426881987,
   1925078388, 2162078206, 2614888103, 3248222580, 3835390401, 4022224774,
   264347078, 604807628, 770255983, 1249150122, 1555081692, 1996064986,
   2554220882, 2821834349, 2952996808, 3210313671, 3336571891, 3584528711,
   113926993, 338241895, 666307205, 773529912, 1294757372, 1396182291,
   1695183700, 1986661051, 2177026350, 2456956037, 2730485921, 2820302411,
   3259730800, 3345764771, 3516065817, 3600352804, 4094571909, 275423344,
   430227734, 506948616, 659060556, 883997877, 958139571, 1322822218,
   1537002063, 1747873779, 1955562222, 2024104815, 2227730452, 2361852424,
   2428436474, 2756734187, 3204031479, 3329325298]

/-- The SHA-256 initial hash value (FIPS 180-4 §5.3.3, written in decimal). -/
def shaH0 : List Nat :=
  [1779033703, 3144134277, 1013904242, 2773480762, 1359893119, 2600822924,
   528734635, 1541459225]

/-- Extend a 16-word message block to the 64-word schedule (`n` = words to add). -/
def scheduleAux : Nat → List Nat → List Nat
  | 0, ws => ws
  | Nat.succ n, ws =>
      let i := ws.length
      scheduleAux n (ws ++ [(ws.getD (i - 16) 0 + smallSigma0 (ws.getD (i - 15) 0) +
        ws.getD (i - 7) 0 + smallSigma1 (ws.getD (i - 2) 0)) % w32])

/-- The full 64-word message schedule of one block. -/
def schedule (block : List Nat) : List Nat := scheduleAux 48 block

/-- One round of the SHA-256 compression function. -/
def compressStep (st : List Nat) (kw : Nat × Nat) : List Nat :=
  let a := st.getD 0 0
  let b := st.getD 1 0
  let c := st.getD 2 0
  let d := st.getD 3 0
  let e := st.getD 4 0
  let f := st.getD 5 0
  let g := st.getD 6 0
  let h := st.getD 7 0
  let t1 := (h + bigSigma1 e + shaCh e f g + kw.1 + kw.2) % w32
  let t2 := (bigSigma0 a + shaMaj a b c) % w32
  [(t1 + t2) % w32, a, b, c, (d + t1) % w32, e, f, g]

/-- Compress one 16-word block into the running hash state. -/
def compressBlock (st block : List Nat) : List Nat :=
  let final := (shaK.zip (schedule block)).foldl compressStep st
  List.zipWith (fun x y => (x + y) % w32) st final

/-- Fold the compression function over `n` successive 16-word blocks. -/
def processBlocks : Nat → List Nat → List Nat → List Nat
  | 0, st, _ => st
  | Nat.succ n, st, ws => processBlocks n (compressBlock st (ws.take 16)) (ws.drop 16)

/-- Big-endian 8-byte encoding of a natural number. -/
def be64 (n : Nat) : List Nat :=
  [(n >>> 56) % 256, (n >>> 48) % 256, (n >>> 40) % 256, (n >>> 32) % 256,
   (n >>> 24) % 256, (n >>> 16) % 256, (n >>> 8) % 256, n % 256]

/-- SHA-256 padding: 0x80, zeros, then the 64-bit big-endian bit length. -/
def padMessage (msg : List Nat) : List Nat :=
  msg ++ 128 :: List.replicate ((119 - msg.length % 64) % 64) 0 ++ be64 (8 * msg.length)

/-- Group a byte list into big-endian 32-bit words (four bytes per word). -/
def toWords : List Nat → List Nat
  | b0 :: b1 :: b2 :: b3 :: rest => (b0 <<< 24 ||| b1 <<< 16 ||| b2 <<< 8 ||| b3) :: toWords rest
  | _ => []

/-- The four big-endian bytes of a 32-bit word. -/
def wordBytes (w : Nat) : List Nat := [(w >>> 24) % 256, (w >>> 16) % 256, (w >>> 8) % 256, w % 256]

/-- SHA-256 digest of a byte list, as 32 bytes. -/
def sha256 (msg : List Nat) : List Nat :=
  let ws := toWords (padMessage msg)
  ((processBlocks (ws.length / 16) shaH0 ws).map wordBytes).flatten

/-- HMAC-SHA256 over byte lists (RFC 2104 with a 64-byte block). -/
def hmacSha256 (key msg : List Nat) : List Nat :=
  let k0 := if key.length > 64 then sha256 key else key
  let kp := k0 ++ List.replicate (64 - k0.length) 0
  sha256 ((kp.map (fun b => b ^^^ 92)) ++ sha256 ((kp.map (fun b => b ^^^ 54)) ++ msg))

/-! ## Encodings: UTF-8, lowercase hex, base64 -/

/-- UTF-8 encoding of one code point. -/
def utf8Bytes (c : Nat) : List Nat :=
  if c < 128 then [c]
  else if c < 2048 then [192 + c / 64, 128 + c % 64]
  else if c < 65536 then [224 + c / 4096, 128 + (c / 64) % 64, 128 + c % 64]
  else [240 + c / 262144, 128 + (c / 4096) % 64, 128 + (c / 64) % 64, 128 + c % 64]

/-- UTF-8 byte encoding of a string (Python's `str.encode("utf-8")`). -/
def strBytes (s : String) : List Nat := (s.data.map (fun c => utf8Bytes c.toNat)).flatten

/-- Lowercase hex digit for a value below 16. -/
def hexDigitChar (n : Nat) : Char := if n < 10 then Char.ofNat (48 + n) else Char.ofNat (87 + n)

/-- Lowercase hex string of a byte list (Python's `.hexdigest()`). -/
def bytesToHex (bs : List Nat) : String :=
  String.mk ((bs.map (fun b => [hexDigitChar (b / 16 % 16), hexDigitChar (b % 16)])).flatten)

/-- The base64 alphabet character for a 6-bit value. -/
def b64Char (n : Nat) : Char :=
  if n < 26 then Char.ofNat (65 + n)
  else if n < 52 then Char.ofNat (97 + (n - 26))
  else if n < 62 then Char.ofNat (48 + (n - 52))
  else if n = 62 then Char.ofNat 43 else Char.ofNat 47

/-- Standard base64 encoding of a byte list, with `=` padding. -/
def b64Encode : List Nat → List Char
  | b0 :: b1 :: b2 :: rest =>
      let n := b0 <<< 16 ||| b1 <<< 8 ||| b2
      b64Char (n >>> 18 % 64) :: b64Char (n >>> 12 % 64) :: b64Char (n >>> 6 % 64) ::
        b64Char (n % 64) :: b64Encode rest
  | [b0, b1] =>
      let n := b0 <<< 16 ||| b1 <<< 8
      [b64Char (n >>> 18 % 64), b64Char (n >>> 12 % 64), b64Char (n >>> 6 % 64), Char.ofNat 61]
  | [b0] =>
      let n := b0 <<< 16
      [b64Char (n >>> 18 % 64), b64Char (n >>> 12 % 64), Char.ofNat 61, Char.ofNat 61]
  | [] => []

/-- Base64 string of a byte list (Python's `base64.b64encode(...).decode()`). -/
def bytesToB64 (bs : List Nat) : String := String.mk (b64Encode bs)

/-! ## Signature verification (`orders/security.py`)

Header values and the configured secret are `Option String`: `none` is an
absent header / unset setting, and Python truthiness (`if secret:` /
`if not signature_header:`) treats both `None` and `""` as falsy. -/

/-- Python truthiness of an optional string: `None` and `""` are falsy. -/
def pyTruthy : Option String → Bool
  | none => false
  | some s => decide (s ≠ "")

/-- `generate_webhook_signature` (security.py): hex HMAC-SHA256 of the payload. -/
def generate_webhook_signature (payload : List Nat) (secret : String) : String :=
  bytesToHex (hmacSha256 (strBytes secret) payload)

/-- The base64 HMAC-SHA256 a Shopify-style sender attaches (test_webhook_hmac.py,
`generate_shopify_signature`). -/
def generate_shopify_signature (payload : List Nat) (secret : String) : String :=
  bytesToB64 (hmacSha256 (strBytes secret) payload)

/-- `verify_webhook_signature` (security.py, hex variant): open mode when no
secret is configured; reject when the header is missing; otherwise compare the
hex digest to the header. -/
def verify_webhook_signature (request_body : List Nat) (signature_header : Option String)
    (secret : Option String) : Bool :=
  if !pyTruthy secret then true
  else if !pyTruthy signature_header then false
  else decide (generate_webhook_signature request_body (secret.getD "") = signature_header.getD "")

/-- `verify_shopify_webhook` (security.py, base64 variant). Note the source
checks the signature header for presence BEFORE the open-mode secret check. -/
def verify_shopify_webhook (request_body : List Nat) (signature_header : Option String)
    (secret : Option String) : Bool :=
  if !pyTruthy signature_header then false
  else if !pyTruthy secret then true
  else decide (generate_shopify_signature request_body (secret.getD "") = signature_header.getD "")

/-- The signature gate of `order_webhook` (views.py lines 52-77): skipped
entirely when no secret is configured; the Shopify header, when present, takes
precedence over the hex header; no header at all fails. -/
def webhookAuthGate (secret hexSig shopSig : Option String) (rawBody : List Nat) : Bool :=
  if pyTruthy secret then
    if pyTruthy shopSig then verify_shopify_webhook rawBody shopSig secret
    else if pyTruthy hexSig then verify_webhook_signature rawBody hexSig secret
    else false
  else true

/-! ## Data model (`orders/models.py`)

Decimal fields with two places are integers counted in hundredths. The
server-assigned `created_at` timestamp is omitted: no claim depends on it.
`OrderItem.order` is a foreign key to its Order; since `external_ref` is
unique, the item rows here carry the owning order's `external_ref`. -/

/-- A persisted `Order` row. `idempotency_key = none` is SQL NULL (the unique
constraint does not apply across NULLs); `some s` — including `some ""` — is a
stored string subject to the unique constraint. -/
structure Order where
  external_ref : String
  idempotency_key : Option String
  customer_name : String
  customer_email : String
  shipping_address : String
  total : Int
deriving DecidableEq, Repr

/-- A persisted `OrderItem` row, keyed by its owner's `external_ref`. -/
structure OrderItem where
  order_ref : String
  sku : String
  name : String
  quantity : Int
  unit_price : Int
deriving DecidableEq, Repr

/-- The database state: the Order table and the OrderItem table. -/
structure DB where
  orders : List Order
  items : List OrderItem
deriving DecidableEq, Repr

/-- The empty database. -/
def DB.empty : DB := ⟨[], []⟩

/-- `Order.objects.filter(idempotency_key=k).first()`. -/
def findByIdem (db : DB) (k : String) : Option Order :=
  db.orders.find? (fun o => o.idempotency_key = some k)

/-- `Order.objects.filter(external_ref=r).first()`. -/
def findByRef (db : DB) (r : String) : Option Order :=
  db.orders.find? (fun o => o.external_ref = r)

/-- Does any Order row carry this `external_ref`? (unique-constraint check). -/
def hasRef (db : DB) (r : String) : Bool :=
  db.orders.any (fun o => o.external_ref = r)

/-- Does any Order row carry this non-NULL `idempotency_key`? -/
def hasIdem (db : DB) (k : String) : Bool :=
  db.orders.any (fun o => o.idempotency_key = some k)

/-- Number of Order rows with this `external_ref`. -/
def countByRef (db : DB) (r : String) : Nat :=
  (db.orders.filter (fun o => o.external_ref = r)).length

/-- Number of Order rows with this non-NULL `idempotency_key`. -/
def countByIdem (db : DB) (k : String) : Nat :=
  (db.orders.filter (fun o => o.idempotency_key = some k)).length

/-- The OrderItem rows owned by the Order with this `external_ref`. -/
def itemsByRef (db : DB) (r : String) : List OrderItem :=
  db.items.filter (fun i => i.order_ref = r)

/-! ## Webhook payload and validation (`orders/serializers.py`)

The modelled payload always carries the always-required scalar fields
(`order_id`, `shipping_address`, `total`); the claims only exercise absence
of `items` and of customer keys, so only those are optional. An
`idempotency_key` of `none` covers both an absent field and JSON null (both
validate to Python `None`); `some s` is a string, including `some ""`
(the serializer sets `allow_blank=True`). -/

/-- One entry of the incoming `items` list. -/
structure RawItem where
  sku : String
  name : String
  quantity : Int
  unit_price : Int
deriving DecidableEq, Repr

/-- The incoming webhook payload (`request.data` after JSON parsing). The
`customer` object is an association list of string fields. -/
structure RawPayload where
  order_id : String
  idempotency_key : Option String
  customer : List (String × String)
  items : Option (List RawItem)
  shipping_address : String
  total : Int
deriving DecidableEq, Repr

/-- Key lookup in the `customer` dict. -/
def customerGet (c : List (String × String)) (k : String) : Option String :=
  (c.find? (fun p => p.1 = k)).map (fun p => p.2)

/-- `DecimalField(max_digits=10, decimal_places=2)`: at most ten significant
digits, i.e. absolute value below 10^10 hundredths. No `min_value` is set, so
negative values pass. -/
def decValid (c : Int) : Bool := c.natAbs < 10000000000

/-- Validity of one item under `OrderItemSerializer`: non-blank bounded `sku`
and `name`, `quantity ≥ 1` (`min_value=1`), and a well-formed decimal
`unit_price` (no lower bound). -/
def itemValid (i : RawItem) : Bool :=
  !i.sku.isEmpty && i.sku.length ≤ 100 &&
  !i.name.isEmpty && i.name.length ≤ 255 &&
  1 ≤ i.quantity && decValid i.unit_price

/-- `OrderWebhookSerializer.is_valid()`: field checks plus `validate_customer`
(only key presence of `name` and `email`) and `validate_items` (non-empty). -/
def serializerValid (p : RawPayload) : Bool :=
  !p.order_id.isEmpty && p.order_id.length ≤ 255 &&
  (match p.idempotency_key with
   | none => true
   | some s => s.length ≤ 255) &&
  (customerGet p.customer "name").isSome &&
  (customerGet p.customer "email").isSome &&
  (match p.items with
   | none => false
   | some its => !its.isEmpty && its.all itemValid) &&
  !p.shipping_address.isEmpty &&
  decValid p.total

/-- The Order row `OrderWebhookSerializer.create` inserts: every stored field
is copied from the validated payload — in particular `total` is the payload's
`total`, not a sum over the items. -/
def mkOrder (p : RawPayload) : Order :=
  { external_ref := p.order_id
    idempotency_key := p.idempotency_key
    customer_name := (customerGet p.customer "name").getD ""
    customer_email := (customerGet p.customer "email").getD ""
    shipping_address := p.shipping_address
    total := p.total }

/-- The OrderItem rows `OrderWebhookSerializer.create` inserts. -/
def mkItems (p : RawPayload) : List OrderItem :=
  (p.items.getD []).map (fun i => ⟨p.order_id, i.sku, i.name, i.quantity, i.unit_price⟩)

/-- Would `Order.objects.create` violate a unique constraint (IntegrityError)?
Conflicts arise on `external_ref`, or on a non-NULL `idempotency_key`. -/
def createConflict (db : DB) (p : RawPayload) : Bool :=
  hasRef db p.order_id ||
  (match p.idempotency_key with
   | some k => hasIdem db k
   | none => false)

/-- The sum over the payload's items of quantity × unit price (the total the
spec expects; the code never computes it). -/
def payloadItemsSum (p : RawPayload) : Int :=
  ((p.items.getD []).map (fun i => i.quantity * i.unit_price)).sum

/-- "No existing order with its order_id or idempotency_key": the payload is a
true first-time submission against this database. -/
def firstTime (db : DB) (p : RawPayload) : Bool := !createConflict db p

/-- `OrderWebhookSerializer.create` (serializer.save() inside
`transaction.atomic()`): re-check the idempotency key (truthy only), else
insert the Order and all its items atomically; a unique-constraint violation
is the `IntegrityError` (`.error ()`). -/
def serializerSave (p : RawPayload) (db : DB) : Except Unit (Order × DB) :=
  if pyTruthy p.idempotency_key then
    match findByIdem db (p.idempotency_key.getD "") with
    | some existing => .ok (existing, db)
    | none =>
      if createConflict db p then .error ()
      else .ok (mkOrder p, ⟨db.orders ++ [mkOrder p], db.items ++ mkItems p⟩)
  else
    if createConflict db p then .error ()
    else .ok (mkOrder p, ⟨db.orders ++ [mkOrder p], db.items ++ mkItems p⟩)

/-! ## The ingestion handler (`orders/views.py`) -/

/-- The observable outcome of one request: HTTP status, the relevant JSON body
fields (`ok` / `order_id` / `created`, whether an `errors` dict or an `error`
message is present), the resulting database, the number of publish attempts,
and whether a publish attempt succeeded. -/
structure HandlerOutcome where
  status : Nat
  ok : Option Bool
  order_id : Option String
  created : Option Bool
  errors : Bool
  error_msg : Bool
  db : DB
  publishCalls : Nat
  publishedOk : Bool
deriving DecidableEq, Repr

/-- The post-authentication stages of `order_webhook` (views.py lines 79-160):
validation, idempotency pre-check, atomic create with IntegrityError recovery,
then the non-fatal publish. `publishRaises` is the oracle for whether
`publish_order_created` raises on this request; the exception is caught, so it
affects only `publishedOk`. -/
def processOrder (p : RawPayload) (db : DB) (publishRaises : Bool) : HandlerOutcome :=
  if serializerValid p then
    if pyTruthy p.idempotency_key then
      match findByIdem db (p.idempotency_key.getD "") with
      | some existing =>
        ⟨200, some true, some existing.external_ref, some false, false, false, db, 0, false⟩
      | none =>
        match serializerSave p db with
        | .ok (order, db') =>
          ⟨201, some true, some order.external_ref, some true, false, false, db', 1, !publishRaises⟩
        | .error _ =>
          match findByRef db p.order_id with
          | some existing =>
            ⟨200, some true, some existing.external_ref, some false, false, false, db, 0, false⟩
          | none =>
            ⟨409, none, some p.order_id, none, false, true, db, 0, false⟩
    else
      match serializerSave p db with
      | .ok (order, db') =>
        ⟨201, some true, some order.external_ref, some true, false, false, db', 1, !publishRaises⟩
      | .error _ =>
        match findByRef db p.order_id with
        | some existing =>
          ⟨200, some true, some existing.external_ref, some false, false, false, db, 0, false⟩
        | none =>
          ⟨409, none, some p.order_id, none, false, true, db, 0, false⟩
  else
    ⟨400, none, none, none, true, false, db, 0, false⟩

/-- The full `order_webhook` view: the signature gate, then the ingestion
stages. A failed gate is the 401 response with no database write and no
publish. -/
def order_webhook (secret hexSig shopSig : Option String) (rawBody : List Nat)
    (p : RawPayload) (db : DB) (publishRaises : Bool) : HandlerOutcome :=
  if webhookAuthGate secret hexSig shopSig rawBody then processOrder p db publishRaises
  else ⟨401, none, none, none, false, true, db, 0, false⟩

/-! ## The event relay (`management/commands/subscribe_order_created.py`)

A delivered message body falls into one of four classes the callback's
exception handling distinguishes: bytes that fail `message.data.decode("utf-8")`
(`UnicodeDecodeError`), text that fails `json.loads` (`json.JSONDecodeError`),
valid JSON that is not an object (so `event_data.get` raises
`AttributeError`), or a decoded JSON object, modelled as an association list
of string fields (the shape `publish_order_created` produces). Only the
`JSONDecodeError` case has a dedicated `ack` handler; the other two failures
fall through to the generic `except Exception` handler, which nacks. The
egress call is the oracle `send : EventData → Bool` —
`send_order_created_webhook` is total and returns a boolean (see below). -/

/-- A decoded `order.created` event: JSON object fields as an assoc list. -/
def EventData : Type := List (String × String)

/-- Field lookup in a decoded event (`event_data.get(k)`). -/
def eventGet (d : EventData) (k : String) : Option String :=
  (d.find? (fun p => p.1 = k)).map (fun p => p.2)

/-- One delivered broker message, as the relay callback sees it:
`notUtf8` bodies raise `UnicodeDecodeError` at `message.data.decode`,
`invalidJson` bodies raise `json.JSONDecodeError` at `json.loads`,
`jsonNonObject` bodies parse to a non-dict JSON value (list, string, number,
boolean or null) so `event_data.get` raises `AttributeError`, and `event d`
bodies parse to a JSON object. -/
inductive RelayMsg where
  | notUtf8
  | invalidJson
  | jsonNonObject
  | event (d : EventData)

/-- The callback's terminal signal to the broker. -/
inductive AckDecision where
  | ack
  | nack
deriving DecidableEq, Repr

/-- The relay callback (subscribe_order_created.py lines 59-104): the result
is the ack/nack decision paired with the number of egress send invocations.
A `json.JSONDecodeError` is caught by its dedicated handler and the message
acknowledged without calling the sender; a decoded JSON object is sent and
acknowledged exactly when the send returns true; but a `UnicodeDecodeError`
(non-UTF-8 body) or an `AttributeError` (non-object JSON) reaches the generic
`except Exception` handler, which negatively acknowledges without the sender
ever being called. -/
def relayCallback (send : EventData → Bool) : RelayMsg → AckDecision × Nat
  | .notUtf8 => (.nack, 0)
  | .invalidJson => (.ack, 0)
  | .jsonNonObject => (.nack, 0)
  | .event d => (if send d then .ack else .nack, 1)

/-! ## The egress sender (`orders/webhooks.py`)

The outbound HTTP call is the oracle `http : HttpPost → HttpOutcome`; the
function records every POST it performs so that "exactly one request, JSON
content type, bounded timeout" is visible in the result. -/

/-- The outcome of one outbound HTTP POST: a response with a status code, or a
transport-level error (any raised `httpx.HTTPError` / other exception). -/
inductive HttpOutcome where
  | response (status : Nat)
  | transportError
deriving DecidableEq, Repr

/-- The outgoing egress payload: the four copied event fields plus the
`sent_at` timestamp added at send time. -/
structure EgressPayload where
  event : Option String
  order_id : Option String
  customer_name : Option String
  total : Option String
  sent_at : String
deriving DecidableEq, Repr

/-- One performed HTTP POST: its JSON payload, whether the
`Content-Type: application/json` header was set, and the client timeout in
seconds. -/
structure HttpPost where
  payload : EgressPayload
  contentTypeJson : Bool
  timeoutSeconds : Nat
deriving DecidableEq, Repr

/-- The single POST `send_order_created_webhook` builds for an event at
timestamp `now`. -/
def egressPost (event_data : EventData) (now : String) : HttpPost :=
  { payload :=
      { event := eventGet event_data "event"
        order_id := eventGet event_data "order_id"
        customer_name := eventGet event_data "customer_name"
        total := eventGet event_data "total"
        sent_at := now }
    contentTypeJson := true
    timeoutSeconds := 10 }

/-- `response.raise_for_status()` passes exactly for 2xx statuses
(`httpx.Response.is_success`). -/
def httpSuccess (s : Nat) : Bool := 200 ≤ s && s ≤ 299

/-- `send_order_created_webhook` (webhooks.py): build the payload with a
`sent_at` timestamp, perform one bounded-timeout JSON POST, and map the outcome
to a boolean — `true` only for a 2xx response, `false` for any other status or
transport error. The returned list is the trace of performed POSTs. -/
def send_order_created_webhook (event_data : EventData) (now : String)
    (http : HttpPost → HttpOutcome) : Bool × List HttpPost :=
  let post := egressPost event_data now
  match http post with
  | .response s => (httpSuccess s, [post])
  | .transportError => (false, [post])

/-! ## Helper lemmas -/

theorem compressStep_length (st : List Nat) (kw : Nat × Nat) :
    (compressStep st kw).length = 8 := rfl

theorem foldl_compressStep_length (l : List (Nat × Nat)) (st : List Nat) (h : st.length = 8) :
    (l.foldl compressStep st).length = 8 := by
  induction l generalizing st with
  | nil => simpa using h
  | cons x xs ih => simpa using ih (compressStep st x) (compressStep_length st x)

theorem compressBlock_length (st b : List Nat) (h : st.length = 8) :
    (compressBlock st b).length = 8 := by
  simp [compressBlock, List.length_zipWith, h,
    foldl_compressStep_length (shaK.zip (schedule b)) st h]

theorem processBlocks_length (n : Nat) (st ws : List Nat) (h : st.length = 8) :
    (processBlocks n st ws).length = 8 := by
  induction n generalizing st ws with
  | zero => simpa [processBlocks] using h
  | succ m ih => simpa [processBlocks] using ih _ _ (compressBlock_length st (ws.take 16) h)

theorem flatten_map_wordBytes_length (l : List Nat) :
    ((l.map wordBytes).flatten).length = 4 * l.length := by
  induction l with
  | nil => simp
  | cons a t ih => simp [wordBytes, ih]; ring

theorem sha256_length (msg : List Nat) : (sha256 msg).length = 32 := by
  have h8 := processBlocks_length ((toWords (padMessage msg)).length / 16) shaH0
    (toWords (padMessage msg)) rfl
  show (((processBlocks ((toWords (padMessage msg)).length / 16) shaH0
    (toWords (padMessage msg))).map wordBytes).flatten).length = 32
  rw [flatten_map_wordBytes_length, h8]

theorem sha256_ne_nil (msg : List Nat) : sha256 msg ≠ [] := by
  intro h
  have := sha256_length msg
  rw [h] at this
  simp at this

theorem bytesToHex_ne_empty (bs : List Nat) (h : bs ≠ []) : bytesToHex bs ≠ "" := by
  match bs with
  | [] => exact absurd rfl h
  | b :: t =>
    simp only [bytesToHex, List.map_cons, List.flatten_cons]
    intro hcontra
    rw [String.ext_iff] at hcontra
    simp at hcontra

theorem b64Encode_ne_nil (bs : List Nat) (h : bs ≠ []) : b64Encode bs ≠ [] := by
  match bs with
  | [] => exact absurd rfl h
  | [b0] => simp [b64Encode]
  | [b0, b1] => simp [b64Encode]
  | b0 :: b1 :: b2 :: rest => simp [b64Encode]

theorem bytesToB64_ne_empty (bs : List Nat) (h : bs ≠ []) : bytesToB64 bs ≠ "" := by
  simp only [bytesToB64]
  intro hcontra
  rw [String.ext_iff] at hcontra
  exact b64Encode_ne_nil bs h hcontra

theorem generate_webhook_signature_ne_empty (body : List Nat) (secret : String) :
    generate_webhook_signature body secret ≠ "" :=
  bytesToHex_ne_empty _ (sha256_ne_nil _)

theorem generate_shopify_signature_ne_empty (body : List Nat) (secret : String) :
    generate_shopify_signature body secret ≠ "" :=
  bytesToB64_ne_empty _ (sha256_ne_nil _)

theorem findByIdem_eq_none (db : DB) (k : String) (h : hasIdem db k = false) :
    findByIdem db k = none := by
  rw [findByIdem, List.find?_eq_none]
  intro x hx hpx
  have : hasIdem db k = true := by
    rw [hasIdem, List.any_eq_true]
    exact ⟨x, hx, hpx⟩
  rw [h] at this
  exact Bool.noConfusion this

theorem findByRef_eq_none (db : DB) (r : String) (h : hasRef db r = false) :
    findByRef db r = none := by
  rw [findByRef, List.find?_eq_none]
  intro x hx hpx
  have : hasRef db r = true := by
    rw [hasRef, List.any_eq_true]
    exact ⟨x, hx, hpx⟩
  rw [h] at this
  exact Bool.noConfusion this

theorem filter_eq_nil_of_any_false {α : Type} (l : List α) (p : α → Bool)
    (h : l.any p = false) : l.filter p = [] := by
  rw [List.filter_eq_nil_iff]
  intro a ha hpa
  have : l.any p = true := by
    rw [List.any_eq_true]
    exact ⟨a, ha, hpa⟩
  rw [h] at this
  exact Bool.noConfusion this

theorem createConflict_false_hasRef (db : DB) (p : RawPayload)
    (h : createConflict db p = false) : hasRef db p.order_id = false := by
  rw [createConflict, Bool.or_eq_false_iff] at h
  exact h.1

theorem createConflict_false_hasIdem (db : DB) (p : RawPayload) (k : String)
    (hk : p.idempotency_key = some k) (h : createConflict db p = false) :
    hasIdem db k = false := by
  rw [createConflict, Bool.or_eq_false_iff, hk] at h
  exact h.2

/-- Validation-failure path of the handler: `400`, error detail, no write,
no publish. -/
theorem processOrder_invalid (p : RawPayload) (db : DB) (pub : Bool)
    (hv : serializerValid p = false) :
    processOrder p db pub = ⟨400, none, none, none, true, false, db, 0, false⟩ := by
  simp [processOrder, hv]

/-- Successful-create path of the handler: with a valid payload and no
conflicting row, the Order and all its items are appended and the response is
`201 created=true` after one publish attempt. -/
theorem processOrder_create (p : RawPayload) (db : DB) (pub : Bool)
    (hv : serializerValid p = true) (hft : firstTime db p = true) :
    processOrder p db pub =
      ⟨201, some true, some p.order_id, some true, false, false,
        ⟨db.orders ++ [mkOrder p], db.items ++ mkItems p⟩, 1, !pub⟩ := by
  have hconf : createConflict db p = false := by
    rw [firstTime, Bool.not_eq_true'] at hft
    exact hft
  cases hkey : pyTruthy p.idempotency_key with
  | false => simp [processOrder, serializerSave, hv, hkey, hconf, mkOrder]
  | true =>
    cases hk : p.idempotency_key with
    | none => rw [hk] at hkey; exact Bool.noConfusion hkey
    | some k =>
      have hnone : findByIdem db k = none :=
        findByIdem_eq_none db k (createConflict_false_hasIdem db p k hk hconf)
      simp [processOrder, serializerSave, hv, hkey, hk, hnone, hconf, mkOrder]

/-- IntegrityError path with a successful re-read: `200 created=false` with the
existing order's id, no write, no publish. -/
theorem processOrder_conflict_found (p : RawPayload) (db : DB) (pub : Bool) (e : Order)
    (hv : serializerValid p = true) (hkey : pyTruthy p.idempotency_key = false)
    (hconf : createConflict db p = true) (href : findByRef db p.order_id = some e) :
    processOrder p db pub =
      ⟨200, some true, some e.external_ref, some false, false, false, db, 0, false⟩ := by
  simp [processOrder, serializerSave, hv, hkey, hconf, href]

/-- IntegrityError path whose re-read finds nothing: `409` with an error body,
no write, no publish. -/
theorem processOrder_conflict_notfound (p : RawPayload) (db : DB) (pub : Bool)
    (hv : serializerValid p = true) (hkey : pyTruthy p.idempotency_key = false)
    (hconf : createConflict db p = true) (href : findByRef db p.order_id = none) :
    processOrder p db pub =
      ⟨409, none, some p.order_id, none, false, true, db, 0, false⟩ := by
  simp [processOrder, serializerSave, hv, hkey, hconf, href]

/-- Idempotency pre-check hit: `200 created=false` with the existing order's
id, no write, no publish. -/
theorem processOrder_precheck_hit (p : RawPayload) (db : DB) (pub : Bool) (k : String) (e : Order)
    (hv : serializerValid p = true) (hk : p.idempotency_key = some k) (hkne : k ≠ "")
    (hfind : findByIdem db k = some e) :
    processOrder p db pub =
      ⟨200, some true, some e.external_ref, some false, false, false, db, 0, false⟩ := by
  have hkey : pyTruthy (some k) = true := by
    rw [pyTruthy, decide_eq_true_eq]
    exact hkne
  simp [processOrder, hv, hkey, hk, hfind]

theorem pyTruthy_some_of_ne (s : String) (h : s ≠ "") : pyTruthy (some s) = true := by
  rw [pyTruthy, decide_eq_true_eq]
  exact h

theorem order_webhook_authorized (secret hexSig shopSig : Option String) (rawBody : List Nat)
    (p : RawPayload) (db : DB) (pub : Bool)
    (h : webhookAuthGate secret hexSig shopSig rawBody = true) :
    order_webhook secret hexSig shopSig rawBody p db pub = processOrder p db pub := by
  simp [order_webhook, h]

/-! ## Claims -/

/-- C3 (amended). For every body and non-empty secret: verifying the signature
produced by the signer succeeds for both the hex and the base64 encoding; any
other signature string is rejected; an absent signature is rejected by both
verifiers when a secret is configured. With no secret configured the hex
verifier passes unconditionally (open mode), but the Shopify verifier passes
only when a non-empty signature header is present — with an absent or empty
header it returns false even in open mode. -/
theorem C3_signature_law :
    (∀ (body : List Nat) (secret : String), secret ≠ "" →
      verify_webhook_signature body (some (generate_webhook_signature body secret))
        (some secret) = true ∧
      verify_shopify_webhook body (some (generate_shopify_signature body secret))
        (some secret) = true ∧
      (∀ s : String, s ≠ generate_webhook_signature body secret →
        verify_webhook_signature body (some s) (some secret) = false) ∧
      (∀ s : String, s ≠ generate_shopify_signature body secret →
        verify_shopify_webhook body (some s) (some secret) = false) ∧
      verify_webhook_signature body none (some secret) = false ∧
      verify_shopify_webhook body none (some secret) = false) ∧
    (∀ (body : List Nat) (sig : Option String), verify_webhook_signature body sig none = true) ∧
    (∀ (body : List Nat) (s : String), s ≠ "" →
      verify_shopify_webhook body (some s) none = true) ∧
    (∀ body : List Nat, verify_shopify_webhook body none none = false ∧
      verify_shopify_webhook body (some "") none = false) := by
  refine ⟨?_, ?_, ?_, ?_⟩
  · intro body secret hs
    have hsec := pyTruthy_some_of_ne secret hs
    have hhex := pyTruthy_some_of_ne _ (generate_webhook_signature_ne_empty body secret)
    have hsho := pyTruthy_some_of_ne _ (generate_shopify_signature_ne_empty body secret)
    refine ⟨?_, ?_, ?_, ?_, ?_, ?_⟩
    · simp [verify_webhook_signature, hsec, hhex]
    · simp [verify_shopify_webhook, hsec, hsho]
    · intro s hne
      by_cases hse : s = ""
      · subst hse
        simp [verify_webhook_signature, hsec, pyTruthy, hs]
      · have hst := pyTruthy_some_of_ne s hse
        simp [verify_webhook_signature, hsec, hst]
        exact fun h => hne h.symm
    · intro s hne
      by_cases hse : s = ""
      · subst hse
        simp [verify_shopify_webhook, pyTruthy]
      · have hst := pyTruthy_some_of_ne s hse
        simp [verify_shopify_webhook, hsec, hst]
        exact fun h => hne h.symm
    · simp [verify_webhook_signature, hsec, pyTruthy, hs]
    · simp [verify_shopify_webhook, pyTruthy]
  · intro body sig
    simp [verify_webhook_signature, pyTruthy]
  · intro body s hs
    simp [verify_shopify_webhook, pyTruthy_some_of_ne s hs, pyTruthy, hs]
  · intro body
    exact ⟨by simp [verify_shopify_webhook, pyTruthy], by simp [verify_shopify_webhook, pyTruthy]⟩

/-- C3 counterexample: the claim asserts `verify(body, anything, absent_secret)
= true` for both verifiers, but the Shopify verifier checks the signature
header before the open-mode secret check and rejects an absent signature even
with no secret configured. -/
theorem C3_counterexample : verify_shopify_webhook [] none none = false := by decide

set_option maxRecDepth 40000 in
/-- C3 witness: instantiating the amended law at a concrete body and secret. -/
theorem C3_witness :
    ("k" : String) ≠ "" ∧
    verify_webhook_signature (strBytes "body")
      (some (generate_webhook_signature (strBytes "body") "k")) (some "k") = true :=
  ⟨by decide, (C3_signature_law.1 (strBytes "body") "k" (by decide)).1⟩

/-- C9. When a secret is configured and both signature headers are present
(non-empty), the gate evaluates only the Shopify (base64) verifier — the hex
header's value is irrelevant — and the request proceeds iff that verification
succeeds, otherwise it is the 401 outcome. -/
theorem C9_shopify_precedence (secret : String) (hs : secret ≠ "") (body : List Nat)
    (hexv shopv : String) (_hhex : hexv ≠ "") (hshop : shopv ≠ "")
    (p : RawPayload) (db : DB) (pub : Bool) :
    webhookAuthGate (some secret) (some hexv) (some shopv) body
      = verify_shopify_webhook body (some shopv) (some secret) ∧
    order_webhook (some secret) (some hexv) (some shopv) body p db pub
      = if verify_shopify_webhook body (some shopv) (some secret) then processOrder p db pub
        else ⟨401, none, none, none, false, true, db, 0, false⟩ := by
  have hgate : webhookAuthGate (some secret) (some hexv) (some shopv) body
      = verify_shopify_webhook body (some shopv) (some secret) := by
    simp [webhookAuthGate, pyTruthy_some_of_ne secret hs, pyTruthy_some_of_ne shopv hshop]
  refine ⟨hgate, ?_⟩
  rw [order_webhook, hgate]

/-- A payload violating the shape rules the spec lists but the serializer does
not enforce: empty customer email, negative unit price, negative total. -/
def c4Payload : RawPayload :=
  { order_id := "SO-2"
    idempotency_key := none
    customer := [("name", "A"), ("email", "")]
    items := some [⟨"X", "Y", 1, -100⟩]
    shipping_address := "addr"
    total := -5 }

/-- The shape violations the serializer does reject: missing `items`, empty
`items`, or any item quantity below 1. -/
def shapeRejected (p : RawPayload) : Bool :=
  p.items.isNone || (p.items.getD []).isEmpty || (p.items.getD []).any (fun i => i.quantity < 1)

/-- C4 counterexample: a payload with an empty `customer.email`, a negative
`unit_price`, and a negative `total` — which the claim says must receive 400
with no write — passes validation, is persisted, and receives 201. -/
theorem C4_counterexample :
    serializerValid c4Payload = true ∧
    (processOrder c4Payload DB.empty false).status = 201 ∧
    (processOrder c4Payload DB.empty false).db.orders ≠ [] := by decide

/-- C4 (amended). Payloads missing `items`, with an empty `items` list, or
with any item quantity below 1 receive `400` with field-level error detail and
no database write; but an empty `customer.email`, a negative `unit_price`, and
a negative `total` are accepted (no 400) and persisted. -/
theorem C4_shape_validation :
    (∀ (secret hexSig shopSig : Option String) (rawBody : List Nat)
       (p : RawPayload) (db : DB) (pub : Bool),
       webhookAuthGate secret hexSig shopSig rawBody = true →
       shapeRejected p = true →
       order_webhook secret hexSig shopSig rawBody p db pub
         = ⟨400, none, none, none, true, false, db, 0, false⟩) ∧
    serializerValid c4Payload = true ∧
    (processOrder c4Payload DB.empty false).status = 201 := by
  refine ⟨?_, by decide, by decide⟩
  intro secret hexSig shopSig rawBody p db pub hgate hshape
  rw [order_webhook_authorized secret hexSig shopSig rawBody p db pub hgate]
  have hval : serializerValid p = false := by
    rw [shapeRejected] at hshape
    cases hitems : p.items with
    | none => simp [serializerValid, hitems]
    | some its =>
      rw [hitems] at hshape
      simp only [Option.isNone_some, Option.getD_some, Bool.false_or,
        Bool.or_eq_true] at hshape
      cases hshape with
      | inl hempty => simp [serializerValid, hitems, hempty]
      | inr hany =>
        rw [List.any_eq_true] at hany
        obtain ⟨i, hi, hlt⟩ := hany
        rw [decide_eq_true_eq] at hlt
        have hall : its.all itemValid = false := by
          rw [Bool.eq_false_iff]
          intro hall
          rw [List.all_eq_true] at hall
          have hvi := hall i hi
          rw [itemValid] at hvi
          simp only [Bool.and_eq_true, decide_eq_true_eq] at hvi
          omega
        simp [serializerValid, hitems, hall]
  exact processOrder_invalid p db pub hval

/-- C4 witness: a payload with item quantity 0 gets the 400 outcome. -/
theorem C4_witness :
    webhookAuthGate none none none [] = true ∧
    shapeRejected
      { order_id := "SO-3", idempotency_key := none,
        customer := [("name", "A"), ("email", "a@x.com")],
        items := some [⟨"X", "Y", 0, 100⟩],
        shipping_address := "addr", total := 100 } = true ∧
    order_webhook none none none []
      { order_id := "SO-3", idempotency_key := none,
        customer := [("name", "A"), ("email", "a@x.com")],
        items := some [⟨"X", "Y", 0, 100⟩],
        shipping_address := "addr", total := 100 } DB.empty false
      = ⟨400, none, none, none, true, false, DB.empty, 0, false⟩ :=
  ⟨by decide, by decide,
   C4_shape_validation.1 none none none []
     { order_id := "SO-3", idempotency_key := none,
       customer := [("name", "A"), ("email", "a@x.com")],
       items := some [⟨"X", "Y", 0, 100⟩],
       shipping_address := "addr", total := 100 } DB.empty false (by decide) (by decide)⟩

/-- A valid first-time payload whose `total` (0) disagrees with the
quantity × unit-price sum of its items (2 × 1000). -/
def c2Payload : RawPayload :=
  { order_id := "SO-1"
    idempotency_key := none
    customer := [("name", "A"), ("email", "a@x.com")]
    items := some [⟨"X", "Y", 2, 1000⟩]
    shipping_address := "addr"
    total := 0 }

/-- C2 counterexample: a valid first-time payload is accepted (201,
created=true) with stored total 0, although the sum over its items of
quantity × unit_price is 2000 — the handler stores the payload's `total`
without checking it against the items. -/
theorem C2_counterexample :
    serializerValid c2Payload = true ∧
    firstTime DB.empty c2Payload = true ∧
    (processOrder c2Payload DB.empty false).status = 201 ∧
    (processOrder c2Payload DB.empty false).created = some true ∧
    ((processOrder c2Payload DB.empty false).db.orders.map Order.total) = [0] ∧
    payloadItemsSum c2Payload = 2000 := by decide

theorem mkItems_filter (p : RawPayload) :
    (mkItems p).filter (fun i => i.order_ref = p.order_id) = mkItems p := by
  rw [List.filter_eq_self]
  intro a ha
  rw [mkItems, List.mem_map] at ha
  obtain ⟨j, hj, rfl⟩ := ha
  simp

/-- C2 (amended). Every valid first-time payload gets `201` with
`created=true`; exactly one Order row (with `external_ref` the request's
order id) and exactly N OrderItem rows are appended, N the length of the
items list — but the stored total is the payload's `total` field, copied
verbatim, not the sum over items of quantity × unit_price (the two are never
compared). -/
theorem C2_first_time_create (secret hexSig shopSig : Option String) (rawBody : List Nat)
    (p : RawPayload) (db : DB) (pub : Bool)
    (hgate : webhookAuthGate secret hexSig shopSig rawBody = true)
    (hv : serializerValid p = true) (hft : firstTime db p = true)
    (hit0 : itemsByRef db p.order_id = []) :
    order_webhook secret hexSig shopSig rawBody p db pub
      = ⟨201, some true, some p.order_id, some true, false, false,
          ⟨db.orders ++ [mkOrder p], db.items ++ mkItems p⟩, 1, !pub⟩ ∧
    countByRef ⟨db.orders ++ [mkOrder p], db.items ++ mkItems p⟩ p.order_id = 1 ∧
    itemsByRef ⟨db.orders ++ [mkOrder p], db.items ++ mkItems p⟩ p.order_id = mkItems p ∧
    (mkItems p).length = (p.items.getD []).length ∧
    (mkOrder p).total = p.total := by
  have hconf : createConflict db p = false := by
    rw [firstTime, Bool.not_eq_true'] at hft
    exact hft
  have href : hasRef db p.order_id = false := createConflict_false_hasRef db p hconf
  refine ⟨?_, ?_, ?_, ?_, rfl⟩
  · rw [order_webhook_authorized secret hexSig shopSig rawBody p db pub hgate,
      processOrder_create p db pub hv hft]
  · rw [hasRef] at href
    simp [countByRef, List.filter_append, filter_eq_nil_of_any_false _ _ href, mkOrder]
  · rw [itemsByRef] at hit0 ⊢
    simp only [List.filter_append, hit0, List.nil_append]
    exact mkItems_filter p
  · simp [mkItems]

/-- C2 witness: the amended creation contract at a concrete payload. -/
theorem C2_witness :
    webhookAuthGate none none none [] = true ∧
    serializerValid c2Payload = true ∧
    firstTime DB.empty c2Payload = true ∧
    itemsByRef DB.empty c2Payload.order_id = [] ∧
    countByRef ⟨DB.empty.orders ++ [mkOrder c2Payload], DB.empty.items ++ mkItems c2Payload⟩
      c2Payload.order_id = 1 :=
  ⟨by decide, by decide, by decide, by decide,
   (C2_first_time_create none none none [] c2Payload DB.empty false
      (by decide) (by decide) (by decide) (by decide)).2.1⟩

/-- A valid payload carrying an idempotency key. -/
def c1Payload : RawPayload :=
  { order_id := "SO-10045"
    idempotency_key := some "key-1"
    customer := [("name", "Jane"), ("email", "jane@example.com")]
    items := some [⟨"ABC", "Panel", 2, 15000⟩]
    shipping_address := "123 Main St"
    total := 30000 }

/-- C1. A valid payload carrying a non-empty idempotency key, submitted
first-time (201, created=true) and then resubmitted against the resulting
database: the second submission returns `200` with `created=false` and the
existing order's id, leaves the database untouched, attempts no publish, and
the Order/OrderItem rows exist exactly once. -/
theorem C1_idempotent_resubmission (secret hexSig shopSig : Option String) (rawBody : List Nat)
    (p : RawPayload) (db0 : DB) (pub1 pub2 : Bool) (k : String)
    (hgate : webhookAuthGate secret hexSig shopSig rawBody = true)
    (hv : serializerValid p = true) (hk : p.idempotency_key = some k) (hkne : k ≠ "")
    (hft : firstTime db0 p = true) (hit0 : itemsByRef db0 p.order_id = []) :
    (order_webhook secret hexSig shopSig rawBody p db0 pub1).status = 201 ∧
    (order_webhook secret hexSig shopSig rawBody p db0 pub1).created = some true ∧
    order_webhook secret hexSig shopSig rawBody p
        (order_webhook secret hexSig shopSig rawBody p db0 pub1).db pub2
      = ⟨200, some true, some p.order_id, some false, false, false,
          (order_webhook secret hexSig shopSig rawBody p db0 pub1).db, 0, false⟩ ∧
    countByRef (order_webhook secret hexSig shopSig rawBody p db0 pub1).db p.order_id = 1 ∧
    countByIdem (order_webhook secret hexSig shopSig rawBody p db0 pub1).db k = 1 ∧
    itemsByRef (order_webhook secret hexSig shopSig rawBody p db0 pub1).db p.order_id
      = mkItems p := by
  have hconf : createConflict db0 p = false := by
    rw [firstTime, Bool.not_eq_true'] at hft
    exact hft
  have hrefF : hasRef db0 p.order_id = false := createConflict_false_hasRef db0 p hconf
  have hidemF : hasIdem db0 k = false := createConflict_false_hasIdem db0 p k hk hconf
  have h1 : order_webhook secret hexSig shopSig rawBody p db0 pub1
      = ⟨201, some true, some p.order_id, some true, false, false,
          ⟨db0.orders ++ [mkOrder p], db0.items ++ mkItems p⟩, 1, !pub1⟩ := by
    rw [order_webhook_authorized secret hexSig shopSig rawBody p db0 pub1 hgate,
      processOrder_create p db0 pub1 hv hft]
  have hfind : findByIdem ⟨db0.orders ++ [mkOrder p], db0.items ++ mkItems p⟩ k
      = some (mkOrder p) := by
    have hnone := findByIdem_eq_none db0 k hidemF
    rw [findByIdem] at hnone ⊢
    rw [List.find?_append, hnone]
    simp [List.find?, mkOrder, hk]
  have h2 : processOrder p ⟨db0.orders ++ [mkOrder p], db0.items ++ mkItems p⟩ pub2
      = ⟨200, some true, some (mkOrder p).external_ref, some false, false, false,
          ⟨db0.orders ++ [mkOrder p], db0.items ++ mkItems p⟩, 0, false⟩ :=
    processOrder_precheck_hit p _ pub2 k (mkOrder p) hv hk hkne hfind
  refine ⟨by rw [h1], by rw [h1], ?_, ?_, ?_, ?_⟩
  · rw [h1, order_webhook_authorized secret hexSig shopSig rawBody p _ pub2 hgate, h2]
    rfl
  · rw [h1]
    rw [hasRef] at hrefF
    simp [countByRef, List.filter_append, filter_eq_nil_of_any_false _ _ hrefF, mkOrder]
  · rw [h1]
    rw [hasIdem] at hidemF
    simp [countByIdem, List.filter_append, filter_eq_nil_of_any_false _ _ hidemF, mkOrder, hk]
  · rw [h1]
    rw [itemsByRef] at hit0 ⊢
    simp only [List.filter_append, hit0, List.nil_append]
    exact mkItems_filter p

/-- C1 witness: a concrete keyed payload submitted twice. -/
theorem C1_witness :
    webhookAuthGate none none none [] = true ∧
    serializerValid c1Payload = true ∧
    c1Payload.idempotency_key = some "key-1" ∧
    firstTime DB.empty c1Payload = true ∧
    (order_webhook none none none [] c1Payload DB.empty true).status = 201 :=
  ⟨by decide, by decide, by decide, by decide,
   (C1_idempotent_resubmission none none none [] c1Payload DB.empty true true "key-1"
      (by decide) (by decide) (by decide) (by decide) (by decide) (by decide)).1⟩

theorem hasRef_of_findByRef (db : DB) (r : String) (e : Order)
    (h : findByRef db r = some e) : hasRef db r = true := by
  cases hhas : hasRef db r with
  | true => rfl
  | false =>
    rw [findByRef_eq_none db r hhas] at h
    exact Option.noConfusion h

/-- C5. A valid payload without an idempotency key whose `order_id` already
names a persisted Order (the loser of a duplicate race): the atomic create's
uniqueness conflict is caught, the existing row re-read, and the response is
`200` with `created=false` and the existing order's id; the database is
unchanged (exactly one Order keeps that `external_ref`), nothing is published,
and no 500 is surfaced. -/
theorem C5_duplicate_order_id (secret hexSig shopSig : Option String) (rawBody : List Nat)
    (p : RawPayload) (db : DB) (pub : Bool) (e : Order)
    (hgate : webhookAuthGate secret hexSig shopSig rawBody = true)
    (hv : serializerValid p = true) (hkey : p.idempotency_key = none)
    (href : findByRef db p.order_id = some e)
    (hcount : countByRef db p.order_id = 1) :
    order_webhook secret hexSig shopSig rawBody p db pub
      = ⟨200, some true, some e.external_ref, some false, false, false, db, 0, false⟩ ∧
    countByRef (order_webhook secret hexSig shopSig rawBody p db pub).db p.order_id = 1 ∧
    (order_webhook secret hexSig shopSig rawBody p db pub).status ≠ 500 := by
  have hconf : createConflict db p = true := by
    rw [createConflict, hkey, hasRef_of_findByRef db p.order_id e href]
    rfl
  have hkeyF : pyTruthy p.idempotency_key = false := by rw [hkey]; rfl
  have hmain : order_webhook secret hexSig shopSig rawBody p db pub
      = ⟨200, some true, some e.external_ref, some false, false, false, db, 0, false⟩ := by
    rw [order_webhook_authorized secret hexSig shopSig rawBody p db pub hgate]
    exact processOrder_conflict_found p db pub e hv hkeyF hconf href
  refine ⟨hmain, ?_, ?_⟩
  · rw [hmain]
    exact hcount
  · rw [hmain]
    simp

/-- C5 witness: a duplicate `order_id` against a database holding that order. -/
theorem C5_witness :
    webhookAuthGate none none none [] = true ∧
    serializerValid c2Payload = true ∧
    c2Payload.idempotency_key = none ∧
    findByRef ⟨[mkOrder c2Payload], mkItems c2Payload⟩ c2Payload.order_id
      = some (mkOrder c2Payload) ∧
    countByRef ⟨[mkOrder c2Payload], mkItems c2Payload⟩ c2Payload.order_id = 1 ∧
    order_webhook none none none [] c2Payload ⟨[mkOrder c2Payload], mkItems c2Payload⟩ false
      = ⟨200, some true, some (mkOrder c2Payload).external_ref, some false, false, false,
          ⟨[mkOrder c2Payload], mkItems c2Payload⟩, 0, false⟩ :=
  ⟨by decide, by decide, by decide, by decide, by decide,
   (C5_duplicate_order_id none none none [] c2Payload
      ⟨[mkOrder c2Payload], mkItems c2Payload⟩ false (mkOrder c2Payload)
      (by decide) (by decide) (by decide) (by decide) (by decide)).1⟩

/-- C6. On a first-time creation where `publish_order_created` raises, the
exception is swallowed: the response is still `201` with `created=true`, the
Order and OrderItem rows written by the committed transaction are exactly the
ones persisted, and the only trace of the failure is the unsuccessful single
publish attempt. -/
theorem C6_publish_failure_nonfatal (secret hexSig shopSig : Option String) (rawBody : List Nat)
    (p : RawPayload) (db : DB)
    (hgate : webhookAuthGate secret hexSig shopSig rawBody = true)
    (hv : serializerValid p = true) (hft : firstTime db p = true) :
    order_webhook secret hexSig shopSig rawBody p db true
      = ⟨201, some true, some p.order_id, some true, false, false,
          ⟨db.orders ++ [mkOrder p], db.items ++ mkItems p⟩, 1, false⟩ ∧
    (order_webhook secret hexSig shopSig rawBody p db true).db
      = (order_webhook secret hexSig shopSig rawBody p db false).db ∧
    (order_webhook secret hexSig shopSig rawBody p db true).status
      = (order_webhook secret hexSig shopSig rawBody p db false).status := by
  have h1 : order_webhook secret hexSig shopSig rawBody p db true
      = ⟨201, some true, some p.order_id, some true, false, false,
          ⟨db.orders ++ [mkOrder p], db.items ++ mkItems p⟩, 1, false⟩ := by
    rw [order_webhook_authorized secret hexSig shopSig rawBody p db true hgate,
      processOrder_create p db true hv hft]
    rfl
  have h2 : order_webhook secret hexSig shopSig rawBody p db false
      = ⟨201, some true, some p.order_id, some true, false, false,
          ⟨db.orders ++ [mkOrder p], db.items ++ mkItems p⟩, 1, true⟩ := by
    rw [order_webhook_authorized secret hexSig shopSig rawBody p db false hgate,
      processOrder_create p db false hv hft]
    rfl
  rw [h1, h2]
  exact ⟨rfl, rfl, rfl⟩

/-- C6 witness: publish raising on a concrete first-time creation. -/
theorem C6_witness :
    webhookAuthGate none none none [] = true ∧
    serializerValid c1Payload = true ∧
    firstTime DB.empty c1Payload = true ∧
    order_webhook none none none [] c1Payload DB.empty true
      = ⟨201, some true, some c1Payload.order_id, some true, false, false,
          ⟨DB.empty.orders ++ [mkOrder c1Payload], DB.empty.items ++ mkItems c1Payload⟩,
          1, false⟩ :=
  ⟨by decide, by decide, by decide,
   (C6_publish_failure_nonfatal none none none [] c1Payload DB.empty
      (by decide) (by decide) (by decide)).1⟩

/-- C10. If the atomic create hits a uniqueness conflict but the re-read by
`external_ref` finds no matching Order (the conflict came from the
idempotency-key column — reachable with an empty-string key, which skips the
truthiness-guarded pre-check yet is stored non-NULL and unique), the handler
responds `409` with an error body naming the order id — not 200, not 500 —
and persists nothing. -/
theorem C10_conflict_reread_miss (secret hexSig shopSig : Option String) (rawBody : List Nat)
    (p : RawPayload) (db : DB) (pub : Bool)
    (hgate : webhookAuthGate secret hexSig shopSig rawBody = true)
    (hv : serializerValid p = true) (hkey : pyTruthy p.idempotency_key = false)
    (hconf : createConflict db p = true) (href : findByRef db p.order_id = none) :
    order_webhook secret hexSig shopSig rawBody p db pub
      = ⟨409, none, some p.order_id, none, false, true, db, 0, false⟩ := by
  rw [order_webhook_authorized secret hexSig shopSig rawBody p db pub hgate]
  exact processOrder_conflict_notfound p db pub hv hkey hconf href

/-- An order persisted with an empty-string idempotency key (allowed by
`allow_blank=True`, stored non-NULL, subject to the unique constraint). -/
def c10Existing : Order := ⟨"SO-X", some "", "B", "b@x.com", "addr2", 100⟩

/-- A valid payload with an empty-string idempotency key and a fresh order id:
its insert conflicts with `c10Existing` on the key column only. -/
def c10Payload : RawPayload :=
  { order_id := "SO-Y"
    idempotency_key := some ""
    customer := [("name", "A"), ("email", "a@x.com")]
    items := some [⟨"X", "Y", 1, 100⟩]
    shipping_address := "addr"
    total := 100 }

/-- C10 witness: the empty-string-key conflict yields the 409 outcome. -/
theorem C10_witness :
    webhookAuthGate none none none [] = true ∧
    serializerValid c10Payload = true ∧
    pyTruthy c10Payload.idempotency_key = false ∧
    createConflict ⟨[c10Existing], []⟩ c10Payload = true ∧
    findByRef ⟨[c10Existing], []⟩ c10Payload.order_id = none ∧
    order_webhook none none none [] c10Payload ⟨[c10Existing], []⟩ false
      = ⟨409, none, some c10Payload.order_id, none, false, true, ⟨[c10Existing], []⟩, 0, false⟩ :=
  ⟨by decide, by decide, by decide, by decide, by decide,
   C10_conflict_reread_miss none none none [] c10Payload ⟨[c10Existing], []⟩ false
     (by decide) (by decide) (by decide) (by decide) (by decide)⟩

/-- C7 counterexample: a non-UTF-8 body is not valid JSON yet is negatively
acknowledged (the claim says such a message is never nacked), and a valid-JSON
non-object body is nacked without the egress send — which here always returns
true — ever being invoked (the claim says valid JSON with a succeeding send is
acknowledged). -/
theorem C7_counterexample :
    relayCallback (fun _ => true) .notUtf8 = (.nack, 0) ∧
    relayCallback (fun _ => true) .jsonNonObject = (.nack, 0) := by decide

/-- C7 (amended). Only a body that decodes as text but fails JSON parsing is
acknowledged as a dead message (sender not called); a decoded JSON object is
sent once and acknowledged exactly when the send returns true, nacked when it
returns false; but a body that is not valid UTF-8, or valid JSON that is not
an object, hits the generic exception handler and is negatively acknowledged
with the sender never called. The ack decision is exactly "JSON-decode error
or send succeeded". -/
theorem C7_relay_ack_decision (send : EventData → Bool) :
    relayCallback send .invalidJson = (.ack, 0) ∧
    relayCallback send .notUtf8 = (.nack, 0) ∧
    relayCallback send .jsonNonObject = (.nack, 0) ∧
    (∀ d, send d = true → relayCallback send (.event d) = (.ack, 1)) ∧
    (∀ d, send d = false → relayCallback send (.event d) = (.nack, 1)) ∧
    (∀ m, (relayCallback send m).1 = .ack ↔
      (m = .invalidJson ∨ ∃ d, m = .event d ∧ send d = true)) := by
  refine ⟨rfl, rfl, rfl, ?_, ?_, ?_⟩
  · intro d hd
    simp [relayCallback, hd]
  · intro d hd
    simp [relayCallback, hd]
  · intro m
    cases m with
    | notUtf8 =>
      constructor
      · intro hcontra
        exact AckDecision.noConfusion hcontra
      · rintro (hmal | ⟨d', hd', _⟩)
        · exact RelayMsg.noConfusion hmal
        · exact RelayMsg.noConfusion hd'
    | invalidJson =>
      constructor
      · intro _
        exact Or.inl rfl
      · intro _
        rfl
    | jsonNonObject =>
      constructor
      · intro hcontra
        exact AckDecision.noConfusion hcontra
      · rintro (hmal | ⟨d', hd', _⟩)
        · exact RelayMsg.noConfusion hmal
        · exact RelayMsg.noConfusion hd'
    | event d =>
      cases hd : send d with
      | true =>
        have hack : (relayCallback send (.event d)).1 = .ack := by simp [relayCallback, hd]
        rw [hack]
        constructor
        · intro _
          exact Or.inr ⟨d, rfl, hd⟩
        · intro _
          rfl
      | false =>
        have hnack : (relayCallback send (.event d)).1 = .nack := by simp [relayCallback, hd]
        rw [hnack]
        constructor
        · intro hcontra
          exact AckDecision.noConfusion hcontra
        · rintro (hmal | ⟨d', hd', hsend⟩)
          · exact RelayMsg.noConfusion hmal
          · cases hd'
            rw [hd] at hsend
            exact Bool.noConfusion hsend

/-- C7 witness: a decoded event object with a succeeding send is acknowledged
after exactly one send invocation. -/
theorem C7_witness :
    (fun _ : EventData => true) [] = true ∧
    relayCallback (fun _ => true) (.event []) = (.ack, 1) :=
  ⟨rfl, (C7_relay_ack_decision (fun _ => true)).2.2.2.1 [] rfl⟩

/-- C8. The egress sender is a total boolean function: it stamps `sent_at`
onto the outgoing payload, performs exactly one HTTP POST with a JSON content
type and a bounded (10 s) timeout, returns false for every non-2xx status and
for a transport error, and returns true only for a 2xx delivery. -/
theorem C8_egress_contract (d : EventData) (now : String) (http : HttpPost → HttpOutcome) :
    (send_order_created_webhook d now http).2 = [egressPost d now] ∧
    (egressPost d now).payload.sent_at = now ∧
    (egressPost d now).contentTypeJson = true ∧
    (egressPost d now).timeoutSeconds = 10 ∧
    (send_order_created_webhook d now http).1
      = (match http (egressPost d now) with
         | .response s => httpSuccess s
         | .transportError => false) ∧
    (∀ s, http (egressPost d now) = .response s → ¬(200 ≤ s ∧ s ≤ 299) →
      (send_order_created_webhook d now http).1 = false) ∧
    (http (egressPost d now) = .transportError →
      (send_order_created_webhook d now http).1 = false) ∧
    ((send_order_created_webhook d now http).1 = true →
      ∃ s, http (egressPost d now) = .response s ∧ 200 ≤ s ∧ s ≤ 299) := by
  refine ⟨?_, rfl, rfl, rfl, ?_, ?_, ?_, ?_⟩
  · rw [send_order_created_webhook]
    cases http (egressPost d now) <;> rfl
  · rw [send_order_created_webhook]
    cases http (egressPost d now) <;> rfl
  · intro s hres hnot
    rw [send_order_created_webhook, hres]
    simp only [httpSuccess]
    rw [Bool.and_eq_false_iff]
    by_cases h200 : 200 ≤ s
    · right
      rw [decide_eq_false_iff_not]
      omega
    · left
      rw [decide_eq_false_iff_not]
      omega
  · intro hres
    rw [send_order_created_webhook, hres]
  · intro hok
    rw [send_order_created_webhook] at hok
    cases hres : http (egressPost d now) with
    | response s =>
      rw [hres] at hok
      simp only [httpSuccess, Bool.and_eq_true, decide_eq_true_eq] at hok
      exact ⟨s, rfl, hok.1, hok.2⟩
    | transportError =>
      rw [hres] at hok
      exact Bool.noConfusion hok

/-- C8 witness: a 500 response from the egress endpoint yields `false`. -/
theorem C8_witness :
    (fun _ : HttpPost => HttpOutcome.response 500) (egressPost [] "t") = .response 500 ∧
    (send_order_created_webhook [] "t" (fun _ => .response 500)).1 = false :=
  ⟨rfl,
   (C8_egress_contract [] "t" (fun _ => .response 500)).2.2.2.2.2.1 500 rfl (by omega)⟩

set_option maxRecDepth 40000 in
/-- C9 witness: with a correct hex signature but a wrong Shopify header, the
gate still follows the Shopify verifier (and rejects). -/
theorem C9_witness :
    ("k" : String) ≠ "" ∧
    webhookAuthGate (some "k") (some (generate_webhook_signature (strBytes "b") "k"))
        (some "x") (strBytes "b")
      = verify_shopify_webhook (strBytes "b") (some "x") (some "k") ∧
    verify_shopify_webhook (strBytes "b") (some "x") (some "k") = false :=
  ⟨by decide,
   (C9_shopify_precedence "k" (by decide) (strBytes "b")
      (generate_webhook_signature (strBytes "b") "k") "x"
      (generate_webhook_signature_ne_empty (strBytes "b") "k") (by decide)
      ⟨"", none, [], none, "", 0⟩ DB.empty false).1,
   by decide⟩
